import Mathlib

/-!
# Verification of zotify's headless OAuth module (`zotify/headless_auth.py`)

Shallow embedding conventions:

* A Python `str` is modelled by its sequence of UTF-8 bytes (`ByteStr`,
  a `List Nat`).  Under this identification `str.encode()` and
  `bytes.decode()` are the identity on representations; `.decode('ascii')`
  additionally checks that every byte is below 128, as the source requests
  an ASCII decode.  All string literals appearing in the source are ASCII,
  so `bs` (code points of a Lean literal) produces exactly their bytes.
* JSON values are modelled by the inductive `Json` (null, booleans,
  integers, strings, objects).  The claims never involve JSON arrays or
  floating-point numbers, so the model omits them; `json.dump`/`json.load`
  of a file is treated as an exact round trip at the `Json` level, while the
  base64-wrapped *inner* JSON of the legacy credential format goes through
  the executable byte-level functions `b64decode` and `jsonLoads`.
* Python stdlib primitives used by the source (`base64.b64encode`,
  `base64.b64decode`, `base64.urlsafe_b64encode`, `hashlib.sha256`,
  `secrets.token_urlsafe`, `json.loads`) are implemented executably below,
  following their documented behaviour.
* Exceptions are modelled by `Except PyErr`; network calls are modelled by
  passing the (already JSON-parsed) response bodies as explicit inputs and
  recording the HTTP requests the code would issue.
-/

/-- A Python `str`/`bytes` value, as its sequence of UTF-8 bytes. -/
abbrev ByteStr := List Nat

/-- Bytes of an ASCII Lean string literal (code points = UTF-8 bytes). -/
def bs (s : String) : ByteStr := s.data.map Char.toNat

mutual

/-- JSON values (subset: no arrays, integer numbers only — sufficient for
every value this module reads or writes). -/
inductive Json where
  | null : Json
  | bool (b : Bool) : Json
  | num (n : Int) : Json
  | str (s : ByteStr) : Json
  | obj (fields : JMembers) : Json
deriving DecidableEq

/-- The members of a JSON object (a Python dict with string keys). -/
inductive JMembers where
  | nil : JMembers
  | cons (k : ByteStr) (v : Json) (rest : JMembers) : JMembers
deriving DecidableEq

end

/-- Build JSON object members from an association list. -/
def JMembers.ofList : List (ByteStr × Json) → JMembers
  | [] => .nil
  | (k, v) :: rest => .cons k v (JMembers.ofList rest)

/-- Python dict lookup `d.get(k)` on JSON object members. -/
def jget (k : ByteStr) : JMembers → Option Json
  | .nil => none
  | .cons k' v rest => if k' = k then some v else jget k rest

/-- Python `k in d`. -/
def hasKey (k : ByteStr) (m : JMembers) : Bool :=
  (jget k m).isSome

/-- Python truthiness of a `str`: nonempty. -/
def truthyStr (s : ByteStr) : Bool := !s.isEmpty

/-- Python truthiness of an `Optional[str]`: not `None` and nonempty. -/
def truthyOpt : Option ByteStr → Bool
  | none => false
  | some s => truthyStr s

/-! ## Base64 (`base64.b64encode` / `b64decode` / `urlsafe_b64encode`) -/

/-- Standard base64 alphabet: 6-bit value to ASCII code. -/
def b64chrStd (n : Nat) : Nat :=
  if n < 26 then 65 + n
  else if n < 52 then 97 + (n - 26)
  else if n < 62 then 48 + (n - 52)
  else if n = 62 then 43
  else 47

/-- URL-safe base64 alphabet (`-` and `_` for values 62 and 63). -/
def b64chrUrl (n : Nat) : Nat :=
  if n < 26 then 65 + n
  else if n < 52 then 97 + (n - 26)
  else if n < 62 then 48 + (n - 52)
  else if n = 62 then 45
  else 95

/-- Base64-encode a byte sequence with the given alphabet, producing the
padded encoding (`=` is ASCII 61). -/
def b64encodeWith (chr : Nat → Nat) : List Nat → List Nat
  | [] => []
  | [a] => [chr (a / 4), chr (a % 4 * 16), 61, 61]
  | [a, b] => [chr (a / 4), chr (a % 4 * 16 + b / 16), chr (b % 16 * 4), 61]
  | a :: b :: c :: rest =>
      chr (a / 4) :: chr (a % 4 * 16 + b / 16) :: chr (b % 16 * 4 + c / 64)
        :: chr (c % 64) :: b64encodeWith chr rest

/-- `base64.b64encode` (standard alphabet, padded), as a str of ASCII codes. -/
def b64encode (bytes : ByteStr) : ByteStr := b64encodeWith b64chrStd bytes

/-- `base64.urlsafe_b64encode` (padded). -/
def b64urlEncode (bytes : ByteStr) : ByteStr := b64encodeWith b64chrUrl bytes

/-- Inverse of the standard alphabet. -/
def b64invStd (c : Nat) : Option Nat :=
  if 65 ≤ c ∧ c ≤ 90 then some (c - 65)
  else if 97 ≤ c ∧ c ≤ 122 then some (c - 97 + 26)
  else if 48 ≤ c ∧ c ≤ 57 then some (c - 48 + 52)
  else if c = 43 then some 62
  else if c = 47 then some 63
  else none

/-- Decode a discarded-and-filtered base64 character stream, four
characters at a time.  Returns `none` on incorrect padding (as
`binascii.Error` from `base64.b64decode`). -/
def b64decodeChunks : List Nat → Option (List Nat)
  | [] => some []
  | p :: q :: r :: s :: rest =>
      match b64invStd p, b64invStd q with
      | some x, some y =>
        if r = 61 then
          if s = 61 ∧ rest = [] then some [x * 4 + y / 16] else none
        else
          match b64invStd r with
          | some z =>
            if s = 61 then
              if rest = [] then some [x * 4 + y / 16, y % 16 * 16 + z / 4] else none
            else
              match b64invStd s, b64decodeChunks rest with
              | some w, some tail =>
                  some ((x * 4 + y / 16) :: (y % 16 * 16 + z / 4)
                    :: (z % 4 * 64 + w) :: tail)
              | _, _ => none
          | none => none
      | _, _ => none
  | _ => none

/-- `base64.b64decode` with default `validate=False`: characters outside
the standard alphabet and `=` are discarded before the padding check; the
remaining stream must consist of 4-character groups, `=` allowed only as
trailing padding. -/
def b64decode (s : ByteStr) : Option ByteStr :=
  b64decodeChunks (s.filter (fun c => (b64invStd c).isSome || c == 61))

/-- Base64 encoding without padding characters (the result of stripping
all trailing `=` from the padded encoding). -/
def b64encodeNoPadWith (chr : Nat → Nat) : List Nat → List Nat
  | [] => []
  | [a] => [chr (a / 4), chr (a % 4 * 16)]
  | [a, b] => [chr (a / 4), chr (a % 4 * 16 + b / 16), chr (b % 16 * 4)]
  | a :: b :: c :: rest =>
      chr (a / 4) :: chr (a % 4 * 16 + b / 16) :: chr (b % 16 * 4 + c / 64)
        :: chr (c % 64) :: b64encodeNoPadWith chr rest

/-- The spec's `base64url_nopad`: URL-safe base64 with `=` padding stripped. -/
def base64urlNoPad (bytes : ByteStr) : ByteStr := b64encodeNoPadWith b64chrUrl bytes

/-- The padding characters the padded base64 encoding appends. -/
def b64padOf : List Nat → List Nat
  | [] => []
  | [_] => [61, 61]
  | [_, _] => [61]
  | _ :: _ :: _ :: rest => b64padOf rest

/-- Python `s.rstrip('=')` on an ASCII byte string. -/
def rstripEq (s : ByteStr) : ByteStr :=
  (s.reverse.dropWhile (fun c => c == 61)).reverse

/-! ## SHA-256 (`hashlib.sha256`), over `Nat` with arithmetic mod `2^32` -/

/-- `2^32`. -/
def M32 : Nat := 4294967296

/-- Rotate a 32-bit word right by `n`. -/
def rotr32 (n x : Nat) : Nat :=
  ((x % M32) >>> n) ||| (((x % M32) <<< (32 - n)) % M32)

/-- SHA-256 `Ch(e,f,g)`. -/
def sha256Ch (e f g : Nat) : Nat := (e &&& f) ^^^ ((e ^^^ 4294967295) &&& g)

/-- SHA-256 `Maj(a,b,c)`. -/
def sha256Maj (a b c : Nat) : Nat := (a &&& b) ^^^ (a &&& c) ^^^ (b &&& c)

/-- SHA-256 `Σ₀`. -/
def sha256S0 (a : Nat) : Nat := rotr32 2 a ^^^ rotr32 13 a ^^^ rotr32 22 a

/-- SHA-256 `Σ₁`. -/
def sha256S1 (e : Nat) : Nat := rotr32 6 e ^^^ rotr32 11 e ^^^ rotr32 25 e

/-- SHA-256 `σ₀`. -/
def sha256s0 (x : Nat) : Nat := rotr32 7 x ^^^ rotr32 18 x ^^^ ((x % M32) >>> 3)

/-- SHA-256 `σ₁`. -/
def sha256s1 (x : Nat) : Nat := rotr32 17 x ^^^ rotr32 19 x ^^^ ((x % M32) >>> 10)

/-- The 64 SHA-256 round constants. -/
def sha256K : List Nat :=
  [1116352408, 1899447441, 3049323471, 3921009573, 961987163,
   1508970993, 2453635748, 2870763221, 3624381080, 310598401,
   607225278, 1426881987, 1925078388, 2162078206, 2614888103,
   3248222580, 3835390401, 4022224774, 264347078, 604807628,
   770255983, 1249150122, 1555081692, 1996064986, 2554220882,
   2821834349, 2952996808, 3210313671, 3336571891, 3584528711,
   113926993, 338241895, 666307205, 773529912, 1294757372,
   1396182291, 1695183700, 1986661051, 2177026350, 2456956037,
   2730485921, 2820302411, 3259730800, 3345764771, 3516065817,
   3600352804, 4094571909, 275423344, 430227734, 506948616,
   659060556, 883997877, 958139571, 1322822218, 1537002063,
   1747873779, 1955562222, 2024104815, 2227730452, 2361852424,
   2428436474, 2756734187, 3204031479, 3329325298]

/-- The SHA-256 initial hash state. -/
def sha256H0 : List Nat :=
  [1779033703, 3144134277, 1013904242,
   2773480762, 1359893119, 2600822924,
   528734635, 1541459225]

/-- Big-endian 8-byte encoding of a (64-bit) length value. -/
def be64 (n : Nat) : List Nat :=
  [(n >>> 56) % 256, (n >>> 48) % 256, (n >>> 40) % 256, (n >>> 32) % 256,
   (n >>> 24) % 256, (n >>> 16) % 256, (n >>> 8) % 256, n % 256]

/-- Big-endian 4-byte encoding of a 32-bit word. -/
def be32 (w : Nat) : List Nat :=
  [(w >>> 24) % 256, (w >>> 16) % 256, (w >>> 8) % 256, w % 256]

/-- SHA-256 message padding: append `0x80`, zeros, and the 64-bit
big-endian bit length, to a multiple of 64 bytes. -/
def sha256Pad (msg : List Nat) : List Nat :=
  msg ++ 128 :: List.replicate ((119 - msg.length % 64) % 64) 0 ++ be64 (8 * msg.length)

/-- Group bytes into big-endian 32-bit words. -/
def beWords : List Nat → List Nat
  | a :: b :: c :: d :: rest =>
      ((a % 256) * 16777216 + (b % 256) * 65536 + (c % 256) * 256 + d % 256)
        :: beWords rest
  | _ => []

/-- Extend a message schedule by `k` further words. -/
def sha256Extend : List Nat → Nat → List Nat
  | ws, 0 => ws
  | ws, k + 1 =>
      sha256Extend
        (ws ++ [(sha256s1 (ws.getD (ws.length - 2) 0) + ws.getD (ws.length - 7) 0
                  + sha256s0 (ws.getD (ws.length - 15) 0) + ws.getD (ws.length - 16) 0) % M32])
        k

/-- The eight working variables of the SHA-256 compression loop. -/
structure Sha256State where
  a : Nat
  b : Nat
  c : Nat
  d : Nat
  e : Nat
  f : Nat
  g : Nat
  h : Nat

/-- One SHA-256 round, consuming a (round constant, schedule word) pair. -/
def sha256Round (st : Sha256State) (kw : Nat × Nat) : Sha256State :=
  let t1 := (st.h + sha256S1 st.e + sha256Ch st.e st.f st.g + kw.1 + kw.2) % M32
  let t2 := (sha256S0 st.a + sha256Maj st.a st.b st.c) % M32
  { a := (t1 + t2) % M32, b := st.a, c := st.b, d := st.c,
    e := (st.d + t1) % M32, f := st.e, g := st.f, h := st.g }

/-- Compress one 16-word block into the running hash state. -/
def sha256Block (hs : List Nat) (block : List Nat) : List Nat :=
  let w := sha256Extend block 48
  let st0 : Sha256State :=
    ⟨hs.getD 0 0, hs.getD 1 0, hs.getD 2 0, hs.getD 3 0,
     hs.getD 4 0, hs.getD 5 0, hs.getD 6 0, hs.getD 7 0⟩
  let st := (sha256K.zip w).foldl sha256Round st0
  [(hs.getD 0 0 + st.a) % M32, (hs.getD 1 0 + st.b) % M32,
   (hs.getD 2 0 + st.c) % M32, (hs.getD 3 0 + st.d) % M32,
   (hs.getD 4 0 + st.e) % M32, (hs.getD 5 0 + st.f) % M32,
   (hs.getD 6 0 + st.g) % M32, (hs.getD 7 0 + st.h) % M32]

/-- Fold the compression function over all 16-word blocks. -/
def sha256Blocks (hs ws : List Nat) : List Nat :=
  if ws.isEmpty then hs
  else sha256Blocks (sha256Block hs (ws.take 16)) (ws.drop 16)
termination_by ws.length
decreasing_by
  simp only [List.length_drop]
  cases ws with
  | nil => simp at *
  | cons x xs => simp; omega

/-- `hashlib.sha256(msg).digest()`: the 32-byte SHA-256 digest. -/
def sha256 (msg : List Nat) : List Nat :=
  ((sha256Blocks sha256H0 (beWords (sha256Pad msg))).map be32).flatten

/-! ## `json.loads` over bytes (for the legacy credential format) -/

/-- Skip JSON whitespace. -/
def skipWs (s : List Nat) : List Nat :=
  s.dropWhile (fun c => c == 32 || c == 9 || c == 10 || c == 13)

/-- JSON string escape codes (`\uXXXX` escapes are not modelled; no claim
input contains them). -/
def jsonEscape (c : Nat) : Option Nat :=
  if c = 34 then some 34
  else if c = 92 then some 92
  else if c = 47 then some 47
  else if c = 98 then some 8
  else if c = 102 then some 12
  else if c = 110 then some 10
  else if c = 114 then some 13
  else if c = 116 then some 9
  else none

/-- Consume a JSON string body up to the closing quote (the opening quote
already consumed); control characters are rejected as in strict
`json.loads`. -/
def parseStrBody : List Nat → Option (ByteStr × List Nat)
  | [] => none
  | 34 :: rest => some ([], rest)
  | 92 :: c :: rest => do
      let e ← jsonEscape c
      let (s, r) ← parseStrBody rest
      some (e :: s, r)
  | c :: rest =>
      if c < 32 then none
      else do
        let (s, r) ← parseStrBody rest
        some (c :: s, r)

/-- Decimal digits to a natural number. -/
def digitsToNat (ds : List Nat) : Nat :=
  ds.foldl (fun acc d => acc * 10 + (d - 48)) 0

/-- Parse a JSON integer (floating-point forms are not modelled; no claim
input contains them). -/
def parseIntTok (input : List Nat) : Option (Json × List Nat) :=
  let core : List Nat → Option (Nat × List Nat) := fun t =>
    let ds := t.takeWhile (fun c => 48 ≤ c && c ≤ 57)
    let r := t.drop ds.length
    if ds.isEmpty then none
    else match r with
      | 46 :: _ => none
      | 101 :: _ => none
      | 69 :: _ => none
      | _ => some (digitsToNat ds, r)
  match input with
  | 45 :: t => do let (n, r) ← core t; some (.num (-(n : Int)), r)
  | t => do let (n, r) ← core t; some (.num (n : Int), r)

mutual

/-- Parse one JSON value (fuel-indexed recursive descent). -/
def parseVal : Nat → List Nat → Option (Json × List Nat)
  | 0, _ => none
  | fuel + 1, input =>
    match skipWs input with
    | 110 :: 117 :: 108 :: 108 :: rest => some (.null, rest)
    | 116 :: 114 :: 117 :: 101 :: rest => some (.bool true, rest)
    | 102 :: 97 :: 108 :: 115 :: 101 :: rest => some (.bool false, rest)
    | 34 :: rest => do
        let (s, r) ← parseStrBody rest
        some (.str s, r)
    | 123 :: rest => do
        let (m, r) ← parseMembers fuel rest true
        some (.obj m, r)
    | other => parseIntTok other

/-- Parse JSON object members after `\x7b` (`first = true`) or after a
comma (`first = false`), up to and including the closing `\x7d`. -/
def parseMembers : Nat → List Nat → Bool → Option (JMembers × List Nat)
  | 0, _, _ => none
  | fuel + 1, input, first =>
    match skipWs input with
    | 125 :: rest => if first then some (.nil, rest) else none
    | 34 :: rest => do
        let (k, r1) ← parseStrBody rest
        match skipWs r1 with
        | 58 :: r2 => do
            let (v, r3) ← parseVal fuel r2
            match skipWs r3 with
            | 44 :: r4 => do
                let (m, r5) ← parseMembers fuel r4 false
                some (.cons k v m, r5)
            | 125 :: r4 => some (.cons k v .nil, r4)
            | _ => none
        | _ => none
    | _ => none

end

/-- `json.loads` on a byte string (for the subset of JSON this module
handles: objects, strings, integers, booleans, null). -/
def jsonLoads (s : ByteStr) : Option Json :=
  match parseVal (s.length + 1) s with
  | some (v, rest) => if (skipWs rest).isEmpty then some v else none
  | none => none

/-! ## The Python module (`zotify/headless_auth.py`) -/

/-- The Python exceptions this module can raise, by kind (with the
exception message where a claim depends on it). -/
inductive PyErr where
  /-- `ValueError("code_verifier is required. Either pass it or call
  get_auth_url() first.")` — the spec's `ConfigurationError`. -/
  | configurationError : PyErr
  /-- `AuthenticationError(msg)`. -/
  | authenticationError (msg : ByteStr) : PyErr
  /-- `KeyError` from `token_data["access_token"]`. -/
  | keyError : PyErr
  /-- `ValueError("Invalid credentials file format")` — the spec's
  `FormatError`. -/
  | formatError : PyErr
  /-- `binascii.Error` from `base64.b64decode` on bad padding. -/
  | binasciiError : PyErr
  /-- `TypeError` (e.g. `b64decode` applied to a non-string value). -/
  | typeError : PyErr
  /-- `AttributeError` (e.g. `.get` on a non-dict, `.encode` on a non-str). -/
  | attributeError : PyErr
  /-- `json.JSONDecodeError` from `json.loads` on the legacy inner bytes. -/
  | jsonDecodeError : PyErr
  /-- `UnicodeDecodeError` from `.decode('ascii')` on non-ASCII bytes. -/
  | unicodeDecodeError : PyErr
deriving DecidableEq

instance {ε α : Type} [DecidableEq ε] [DecidableEq α] : DecidableEq (Except ε α)
  | .error a, .error b =>
      if h : a = b then .isTrue (h ▸ rfl) else .isFalse (fun hh => h (by simpa using hh))
  | .error _, .ok _ => .isFalse (fun hh => Except.noConfusion hh)
  | .ok _, .error _ => .isFalse (fun hh => Except.noConfusion hh)
  | .ok a, .ok b =>
      if h : a = b then .isTrue (h ▸ rfl) else .isFalse (fun hh => h (by simpa using hh))

/-- `ZotifyCredentials.__init__`: `username`, `access_token`,
`refresh_token=None`, `expires_in=3600`.  Fields hold JSON values because
the source stores whatever the (dynamically typed) JSON lookups return;
Python `None` is identified with JSON null. -/
structure ZotifyCredentials where
  username : Json
  access_token : Json
  refresh_token : Json := Json.null
  expires_in : Json := Json.num 3600
deriving DecidableEq

/-- `ZotifyCredentials.save`: the JSON object written to the file
(directory creation and file I/O abstracted to the produced value).
`.encode()` on a non-`str` access token would raise `AttributeError`. -/
def ZotifyCredentials.save (c : ZotifyCredentials) : Except PyErr JMembers :=
  match c.access_token with
  | .str tok =>
      .ok (.cons (bs "username") c.username
        (.cons (bs "credentials") (.str (b64encode tok))
          (.cons (bs "type") (.str (bs "AUTHENTICATION_SPOTIFY_TOKEN")) .nil)))
  | _ => .error .attributeError

/-- The current-format branch of `ZotifyCredentials.load`: base64-decode
the `credentials` field (UTF-8 `.decode()` abstracted to the identity on
bytes) and keep `username` as-is. -/
def loadCurrent (data : JMembers) : Except PyErr ZotifyCredentials :=
  match jget (bs "credentials") data with
  | some (.str c64) =>
    match b64decode c64 with
    | some tokBytes =>
        .ok { username := (jget (bs "username") data).getD (.str (bs "unknown")),
              access_token := .str tokBytes }
    | none => .error .binasciiError
  | some _ => .error .typeError
  | none => .error .typeError

/-- The legacy-format branch of `ZotifyCredentials.load`: base64-decode
the `credentials` field, `.decode('ascii')` the bytes, `json.loads` them,
and read `username`/`credentials` from the inner object. -/
def loadLegacy (data : JMembers) : Except PyErr ZotifyCredentials :=
  match jget (bs "credentials") data with
  | some (.str c64) =>
    match b64decode c64 with
    | some innerBytes =>
        if innerBytes.all (fun c => decide (c < 128)) then
          match jsonLoads innerBytes with
          | some (.obj inner) =>
              .ok { username := (jget (bs "username") inner).getD (.str (bs "unknown")),
                    access_token := (jget (bs "credentials") inner).getD (.str (bs "")) }
          | some _ => .error .attributeError
          | none => .error .jsonDecodeError
        else .error .unicodeDecodeError
    | none => .error .binasciiError
  | some _ => .error .typeError
  | none => .error .typeError

/-- `ZotifyCredentials.load`, from the JSON object parsed from the file
(`json.load` abstracted to the parsed object). -/
def ZotifyCredentials.load (data : JMembers) : Except PyErr ZotifyCredentials :=
  if hasKey (bs "username") data && hasKey (bs "credentials") data
      && hasKey (bs "type") data then
    loadCurrent data
  else if hasKey (bs "credentials") data && !hasKey (bs "username") data then
    loadLegacy data
  else .error .formatError

/-- Python `str(...)`/f-string interpolation of a JSON value.  Exact for
strings, integers, booleans and `None`; the repr of a dict is not modelled
(no claim formats a dict into a message). -/
def pyStrOfJson : Json → ByteStr
  | .str s => s
  | .num n => bs (toString n)
  | .bool true => bs "True"
  | .bool false => bs "False"
  | .null => bs "None"
  | .obj _ => bs "<dict>"

/-- `ZotifyAuth` instance state after `__init__`: configuration plus the
stored verifier and the resolved proxy dict (`http`/`https` slots; a slot
may hold Python `None` = `none`). -/
structure ZotifyAuth where
  client_id : ByteStr
  redirect_uri : ByteStr
  code_verifier : Option ByteStr
  proxies : Option (Option ByteStr × Option ByteStr)
deriving DecidableEq

/-- `ZotifyAuth.__init__(client_id, redirect_uri, proxy=None)`, with the
process environment's `HTTP_PROXY`/`HTTPS_PROXY` passed explicitly
(`none` = variable unset). -/
def zotifyAuthInit (client_id redirect_uri : ByteStr) (proxy : Option ByteStr)
    (envHttpProxy envHttpsProxy : Option ByteStr) : ZotifyAuth :=
  { client_id := client_id
    redirect_uri := redirect_uri
    code_verifier := none
    proxies :=
      if truthyOpt proxy then some (proxy, proxy)
      else if truthyOpt envHttpsProxy then some (envHttpProxy, envHttpsProxy)
      else none }

/-- `secrets.token_urlsafe` applied to given random bytes:
`base64.urlsafe_b64encode(bytes).rstrip(b'=').decode('ascii')`. -/
def tokenUrlsafe (randomBytes : List Nat) : ByteStr :=
  rstripEq (b64urlEncode randomBytes)

/-- `ZotifyAuth._generate_pkce`, with the 64 random bytes drawn by
`secrets.token_urlsafe(64)` passed explicitly.  Returns
`(code_verifier, code_challenge)`. -/
def generatePkce (randomBytes : List Nat) : ByteStr × ByteStr :=
  let code_verifier := tokenUrlsafe randomBytes
  let code_challenge := rstripEq (b64urlEncode (sha256 code_verifier))
  (code_verifier, code_challenge)

/-- An outbound HTTP request as issued by `exchange_code`. -/
inductive HttpRequest where
  /-- `requests.post(url, data=..., proxies=..., timeout=...)`. -/
  | post (url : ByteStr) (formData : List (ByteStr × ByteStr))
      (proxies : Option (Option ByteStr × Option ByteStr)) (timeout : Nat) : HttpRequest
  /-- `requests.get(url, headers={Authorization: ...}, proxies=..., timeout=...)`. -/
  | get (url : ByteStr) (authHeader : ByteStr)
      (proxies : Option (Option ByteStr × Option ByteStr)) (timeout : Nat) : HttpRequest
deriving DecidableEq

/-- `ZotifyAuth.exchange_code(code, code_verifier=None)`.  The two HTTP
response bodies (already JSON-parsed objects) are passed as inputs;
the result pairs the list of HTTP requests actually issued with the
returned credentials or raised exception. -/
def exchangeCode (auth : ZotifyAuth) (code : ByteStr) (codeVerifierArg : Option ByteStr)
    (tokenResp userResp : JMembers) :
    List HttpRequest × Except PyErr ZotifyCredentials :=
  let verifier := if truthyOpt codeVerifierArg then codeVerifierArg else auth.code_verifier
  if !truthyOpt verifier then ([], .error .configurationError)
  else
    let postReq := HttpRequest.post (bs "https://accounts.spotify.com/api/token")
      [(bs "grant_type", bs "authorization_code"),
       (bs "code", code),
       (bs "redirect_uri", auth.redirect_uri),
       (bs "client_id", auth.client_id),
       (bs "code_verifier", verifier.getD [])]
      auth.proxies 30
    match jget (bs "error") tokenResp with
    | some e =>
        ([postReq], .error (.authenticationError
          (bs "Token exchange failed: "
            ++ pyStrOfJson ((jget (bs "error_description") tokenResp).getD e))))
    | none =>
      match jget (bs "access_token") tokenResp with
      | none => ([postReq], .error .keyError)
      | some tok =>
        let getReq := HttpRequest.get (bs "https://api.spotify.com/v1/me")
          (bs "Bearer " ++ pyStrOfJson tok) auth.proxies 30
        ([postReq, getReq], .ok
          { username := (jget (bs "id") userResp).getD
              ((jget (bs "email") userResp).getD (.str (bs "unknown"))),
            access_token := tok,
            refresh_token := (jget (bs "refresh_token") tokenResp).getD .null,
            expires_in := (jget (bs "expires_in") tokenResp).getD (.num 3600) })

/-- The `code_verifier` form field of the first (token-endpoint POST)
request of an exchange, if any. -/
def firstRequestVerifier (r : List HttpRequest × Except PyErr ZotifyCredentials) :
    Option ByteStr :=
  match r.1 with
  | HttpRequest.post _ formData _ _ :: _ => List.lookup (bs "code_verifier") formData
  | _ => none

/-! ## Base64 lemmas -/

theorem b64invStd_b64chrStd : ∀ n < 64, b64invStd (b64chrStd n) = some n := by
  decide

theorem b64chrStd_mem_alphabet : ∀ n < 64, (b64invStd (b64chrStd n)).isSome := by
  decide

theorem b64chrUrl_ne_61 (n : Nat) : b64chrUrl n ≠ 61 := by
  unfold b64chrUrl
  split
  · omega
  · split
    · omega
    · split
      · omega
      · split
        · omega
        · omega

theorem b64chrStd_ne_61 (n : Nat) : b64chrStd n ≠ 61 := by
  unfold b64chrStd
  split
  · omega
  · split
    · omega
    · split
      · omega
      · split
        · omega
        · omega


/-- Three-at-a-time list induction matching the base64 chunking. -/
theorem chunk3_induction {P : List Nat → Prop} (h0 : P []) (h1 : ∀ a, P [a])
    (h2 : ∀ a b, P [a, b]) (h3 : ∀ a b c rest, P rest → P (a :: b :: c :: rest)) :
    ∀ l, P l
  | [] => h0
  | [a] => h1 a
  | [a, b] => h2 a b
  | a :: b :: c :: rest => h3 a b c rest (chunk3_induction h0 h1 h2 h3 rest)

theorem b64decodeChunks_encodeStd :
    ∀ l : List Nat, (∀ b ∈ l, b < 256) →
      b64decodeChunks (b64encodeWith b64chrStd l) = some l := by
  refine chunk3_induction ?_ ?_ ?_ ?_
  · intro _
    rfl
  · intro a h
    have ha : a < 256 := h a (by simp)
    have e1 : b64invStd (b64chrStd (a / 4)) = some (a / 4) :=
      b64invStd_b64chrStd _ (by omega)
    have e2 : b64invStd (b64chrStd (a % 4 * 16)) = some (a % 4 * 16) :=
      b64invStd_b64chrStd _ (by omega)
    simp only [b64encodeWith, b64decodeChunks, e1, e2]
    simp
    omega
  · intro a b h
    have ha : a < 256 := h a (by simp)
    have hb : b < 256 := h b (by simp)
    have e1 : b64invStd (b64chrStd (a / 4)) = some (a / 4) :=
      b64invStd_b64chrStd _ (by omega)
    have e2 : b64invStd (b64chrStd (a % 4 * 16 + b / 16)) = some (a % 4 * 16 + b / 16) :=
      b64invStd_b64chrStd _ (by omega)
    have e3 : b64invStd (b64chrStd (b % 16 * 4)) = some (b % 16 * 4) :=
      b64invStd_b64chrStd _ (by omega)
    simp only [b64encodeWith, b64decodeChunks, e1, e2, e3,
      if_neg (b64chrStd_ne_61 (b % 16 * 4))]
    simp
    omega
  · intro a b c rest ih h
    have ha : a < 256 := h a (by simp)
    have hb : b < 256 := h b (by simp)
    have hc : c < 256 := h c (by simp)
    have hrest : ∀ x ∈ rest, x < 256 := fun x hx => h x (by simp [hx])
    have e1 : b64invStd (b64chrStd (a / 4)) = some (a / 4) :=
      b64invStd_b64chrStd _ (by omega)
    have e2 : b64invStd (b64chrStd (a % 4 * 16 + b / 16)) = some (a % 4 * 16 + b / 16) :=
      b64invStd_b64chrStd _ (by omega)
    have e3 : b64invStd (b64chrStd (b % 16 * 4 + c / 64)) = some (b % 16 * 4 + c / 64) :=
      b64invStd_b64chrStd _ (by omega)
    have e4 : b64invStd (b64chrStd (c % 64)) = some (c % 64) :=
      b64invStd_b64chrStd _ (by omega)
    simp only [b64encodeWith, b64decodeChunks, e1, e2, e3, e4,
      if_neg (b64chrStd_ne_61 (b % 16 * 4 + c / 64)),
      if_neg (b64chrStd_ne_61 (c % 64)), ih hrest]
    congr 1
    have h1 : a / 4 * 4 + (a % 4 * 16 + b / 16) / 16 = a := by omega
    have h2 : (a % 4 * 16 + b / 16) % 16 * 16 + (b % 16 * 4 + c / 64) / 4 = b := by omega
    have h3 : (b % 16 * 4 + c / 64) % 4 * 64 + c % 64 = c := by omega
    rw [h1, h2, h3]

theorem b64invStd_b64chrStd_isSome (n : Nat) : (b64invStd (b64chrStd n)).isSome := by
  unfold b64chrStd b64invStd
  split
  · rw [if_pos (by omega)]; rfl
  · split
    · rw [if_neg (by omega), if_pos (by omega)]; rfl
    · split
      · rw [if_neg (by omega), if_neg (by omega), if_pos (by omega)]; rfl
      · split
        · rw [if_neg (by omega), if_neg (by omega), if_neg (by omega),
            if_pos (by omega)]
          rfl
        · rw [if_neg (by omega), if_neg (by omega), if_neg (by omega),
            if_neg (by omega), if_pos (by omega)]
          rfl

theorem mem_b64encodeWith (chr : Nat → Nat) :
    ∀ l, ∀ c ∈ b64encodeWith chr l, (∃ k, c = chr k) ∨ c = 61 := by
  refine chunk3_induction ?_ ?_ ?_ ?_
  · intro c hc
    simp [b64encodeWith] at hc
  · intro a c hc
    simp only [b64encodeWith, List.mem_cons, List.mem_singleton] at hc
    rcases hc with rfl | rfl | rfl | hc
    · exact .inl ⟨_, rfl⟩
    · exact .inl ⟨_, rfl⟩
    · exact .inr rfl
    · simp at hc
      exact .inr hc
  · intro a b c hc
    simp only [b64encodeWith, List.mem_cons, List.mem_singleton] at hc
    rcases hc with rfl | rfl | rfl | hc
    · exact .inl ⟨_, rfl⟩
    · exact .inl ⟨_, rfl⟩
    · exact .inl ⟨_, rfl⟩
    · simp at hc
      exact .inr hc
  · intro a b c rest ih x hx
    simp only [b64encodeWith, List.mem_cons] at hx
    rcases hx with rfl | rfl | rfl | rfl | hx
    · exact .inl ⟨_, rfl⟩
    · exact .inl ⟨_, rfl⟩
    · exact .inl ⟨_, rfl⟩
    · exact .inl ⟨_, rfl⟩
    · exact ih x hx

/-- The discard step of `b64decode` keeps every character of a standard
base64 encoding. -/
theorem b64encode_filter_id (l : List Nat) :
    (b64encode l).filter (fun c => (b64invStd c).isSome || c == 61) = b64encode l := by
  rw [List.filter_eq_self]
  intro c hc
  rcases mem_b64encodeWith b64chrStd l c hc with ⟨k, rfl⟩ | rfl
  · simp [b64invStd_b64chrStd_isSome k]
  · simp

/-- `base64.b64decode` inverts `base64.b64encode` on byte strings. -/
theorem b64decode_b64encode (l : List Nat) (h : ∀ b ∈ l, b < 256) :
    b64decode (b64encode l) = some l := by
  unfold b64decode
  rw [b64encode_filter_id]
  exact b64decodeChunks_encodeStd l h

theorem b64encodeWith_eq_noPad_append (chr : Nat → Nat) :
    ∀ l, b64encodeWith chr l = b64encodeNoPadWith chr l ++ b64padOf l := by
  refine chunk3_induction ?_ ?_ ?_ ?_
  · rfl
  · intro a; rfl
  · intro a b; rfl
  · intro a b c rest ih
    simp only [b64encodeWith, b64encodeNoPadWith, b64padOf, ih, List.cons_append]

theorem mem_b64encodeNoPadWith (chr : Nat → Nat) :
    ∀ l, ∀ c ∈ b64encodeNoPadWith chr l, ∃ k, c = chr k := by
  refine chunk3_induction ?_ ?_ ?_ ?_
  · intro c hc
    simp [b64encodeNoPadWith] at hc
  · intro a c hc
    simp only [b64encodeNoPadWith, List.mem_cons, List.mem_singleton] at hc
    rcases hc with rfl | hc
    · exact ⟨_, rfl⟩
    · simp at hc
      exact ⟨_, hc⟩
  · intro a b c hc
    simp only [b64encodeNoPadWith, List.mem_cons, List.mem_singleton] at hc
    rcases hc with rfl | rfl | hc
    · exact ⟨_, rfl⟩
    · exact ⟨_, rfl⟩
    · simp at hc
      exact ⟨_, hc⟩
  · intro a b c rest ih x hx
    simp only [b64encodeNoPadWith, List.mem_cons] at hx
    rcases hx with rfl | rfl | rfl | rfl | hx
    · exact ⟨_, rfl⟩
    · exact ⟨_, rfl⟩
    · exact ⟨_, rfl⟩
    · exact ⟨_, rfl⟩
    · exact ih x hx

theorem mem_b64padOf : ∀ l, ∀ c ∈ b64padOf l, c = 61 := by
  refine chunk3_induction ?_ ?_ ?_ ?_
  · intro c hc
    simp [b64padOf] at hc
  · intro a c hc
    simp only [b64padOf, List.mem_cons, List.mem_singleton] at hc
    rcases hc with rfl | hc
    · rfl
    · simpa using hc
  · intro a b c hc
    simp only [b64padOf, List.mem_singleton] at hc
    exact hc
  · intro a b c rest ih x hx
    exact ih x hx

theorem dropWhile_append_all {p : Nat → Bool} :
    ∀ m r : List Nat, (∀ x ∈ m, p x = true) →
      List.dropWhile p (m ++ r) = List.dropWhile p r := by
  intro m
  induction m with
  | nil => intro r _; rfl
  | cons h t ih =>
      intro r hall
      rw [List.cons_append, List.dropWhile_cons]
      rw [if_pos (hall h (by simp))]
      exact ih r (fun x hx => hall x (by simp [hx]))

theorem dropWhile_eq_self_of {p : Nat → Bool} :
    ∀ m : List Nat, (∀ x ∈ m, p x = false) → List.dropWhile p m = m := by
  intro m hm
  cases m with
  | nil => rfl
  | cons h t =>
      rw [List.dropWhile_cons, if_neg (by simp [hm h (by simp)])]

theorem rstripEq_append_pads (u pads : List Nat)
    (hu : ∀ x ∈ u, x ≠ 61) (hp : ∀ x ∈ pads, x = 61) :
    rstripEq (u ++ pads) = u := by
  unfold rstripEq
  rw [List.reverse_append]
  rw [dropWhile_append_all _ _ (fun x hx => by
    simp only [List.mem_reverse] at hx
    simp [hp x hx])]
  rw [dropWhile_eq_self_of _ (fun x hx => by
    simp only [List.mem_reverse] at hx
    simp [hu x hx])]
  exact List.reverse_reverse u

/-- Padded-then-`rstrip('=')` base64 equals the direct no-padding
encoding, for any alphabet avoiding `=`. -/
theorem rstrip_b64encodeWith (chr : Nat → Nat) (hne : ∀ n, chr n ≠ 61) (l : List Nat) :
    rstripEq (b64encodeWith chr l) = b64encodeNoPadWith chr l := by
  rw [b64encodeWith_eq_noPad_append]
  apply rstripEq_append_pads
  · intro x hx
    obtain ⟨k, rfl⟩ := mem_b64encodeNoPadWith chr l x hx
    exact hne k
  · exact mem_b64padOf l

theorem length_b64encodeNoPadWith (chr : Nat → Nat) :
    ∀ l, (b64encodeNoPadWith chr l).length = (4 * l.length + 2) / 3 := by
  refine chunk3_induction ?_ ?_ ?_ ?_
  · rfl
  · intro a; simp [b64encodeNoPadWith]
  · intro a b; simp [b64encodeNoPadWith]
  · intro a b c rest ih
    simp only [b64encodeNoPadWith, List.length_cons, ih]
    omega

/-! ## Claim theorems -/

/-- C2: for every PKCE pair produced by the generator (from 64 random
bytes), the challenge is the base64url-no-padding encoding of the SHA-256
digest of the verifier's bytes, and the verifier's length lies in
[43, 128] (it is in fact 86). -/
theorem pkce_challenge_correct_and_verifier_length (rb : List Nat)
    (hlen : rb.length = 64) (_hbytes : ∀ b ∈ rb, b < 256) :
    (generatePkce rb).2 = base64urlNoPad (sha256 (generatePkce rb).1)
      ∧ 43 ≤ (generatePkce rb).1.length ∧ (generatePkce rb).1.length ≤ 128 := by
  refine ⟨?_, ?_, ?_⟩
  · show rstripEq (b64urlEncode (sha256 (tokenUrlsafe rb))) = _
    exact rstrip_b64encodeWith b64chrUrl b64chrUrl_ne_61 _
  · show 43 ≤ (tokenUrlsafe rb).length
    unfold tokenUrlsafe b64urlEncode
    rw [rstrip_b64encodeWith b64chrUrl b64chrUrl_ne_61,
      length_b64encodeNoPadWith, hlen]
    omega
  · show (tokenUrlsafe rb).length ≤ 128
    unfold tokenUrlsafe b64urlEncode
    rw [rstrip_b64encodeWith b64chrUrl b64chrUrl_ne_61,
      length_b64encodeNoPadWith, hlen]
    omega

theorem pkce_challenge_correct_and_verifier_length_witness :
    (List.replicate 64 0).length = 64
      ∧ (∀ b ∈ List.replicate 64 0, b < 256)
      ∧ ((generatePkce (List.replicate 64 0)).2
            = base64urlNoPad (sha256 (generatePkce (List.replicate 64 0)).1)
          ∧ 43 ≤ (generatePkce (List.replicate 64 0)).1.length
          ∧ (generatePkce (List.replicate 64 0)).1.length ≤ 128) :=
  ⟨by decide, by decide,
    pkce_challenge_correct_and_verifier_length (List.replicate 64 0)
      (by decide) (by decide)⟩

/-- C1: saving credentials with string username and access token and then
loading the written file recovers the username and access token exactly,
while the loaded refresh token is `None` and `expires_in` is the default
3600, whatever they originally were. -/
theorem save_then_load_roundtrip (u tok : ByteStr) (rt ei : Json)
    (hbytes : ∀ b ∈ tok, b < 256) :
    (ZotifyCredentials.save ⟨.str u, .str tok, rt, ei⟩).bind ZotifyCredentials.load
      = .ok ⟨.str u, .str tok, .null, .num 3600⟩ := by
  have d1 : bs "username" ≠ bs "credentials" := by decide
  have d2 : bs "username" ≠ bs "type" := by decide
  have d3 : bs "credentials" ≠ bs "type" := by decide
  simp [ZotifyCredentials.save, Except.bind, ZotifyCredentials.load, loadCurrent,
    hasKey, jget, d1, d2, d3, b64decode_b64encode tok hbytes]

theorem save_then_load_roundtrip_witness :
    (∀ b ∈ bs "sekret-token", b < 256)
      ∧ (ZotifyCredentials.save
            ⟨.str (bs "alice"), .str (bs "sekret-token"), .str (bs "RT"), .num 99⟩).bind
          ZotifyCredentials.load
        = .ok ⟨.str (bs "alice"), .str (bs "sekret-token"), .null, .num 3600⟩ :=
  ⟨by decide,
    save_then_load_roundtrip (bs "alice") (bs "sekret-token") (.str (bs "RT")) (.num 99)
      (by decide)⟩

/-- C8: `save` writes a JSON object with exactly the three fields
`username`, `credentials` (base64 of the access token bytes) and `type`
(the literal `AUTHENTICATION_SPOTIFY_TOKEN`), and persists neither
`refresh_token` nor `expires_in` (the written object does not depend on
them). -/
theorem save_writes_exactly_three_fields (u rt ei : Json) (tok : ByteStr) :
    ZotifyCredentials.save ⟨u, .str tok, rt, ei⟩
      = .ok (.cons (bs "username") u
          (.cons (bs "credentials") (.str (b64encode tok))
            (.cons (bs "type") (.str (bs "AUTHENTICATION_SPOTIFY_TOKEN")) .nil))) := rfl

theorem loadCurrent_ne_formatError (data : JMembers) :
    loadCurrent data ≠ .error .formatError := by
  unfold loadCurrent
  repeat' split
  all_goals simp

theorem loadLegacy_ne_formatError (data : JMembers) :
    loadLegacy data ≠ .error .formatError := by
  unfold loadLegacy
  repeat' split
  all_goals simp

/-- C6: for every legacy-format file (a `credentials` field whose base64
decoding parses as a JSON object, and no top-level `username`), `load`
returns the inner object's `username` (default `"unknown"`) and the inner
object's `credentials` as access token (default `""`), with no
refresh token and the default `expires_in` of 3600. -/
theorem load_legacy_format (outer : JMembers) (s innerBytes : ByteStr) (inner : JMembers)
    (hcred : jget (bs "credentials") outer = some (.str s))
    (huser : hasKey (bs "username") outer = false)
    (hdec : b64decode s = some innerBytes)
    (hascii : innerBytes.all (fun c => decide (c < 128)) = true)
    (hjson : jsonLoads innerBytes = some (.obj inner)) :
    ZotifyCredentials.load outer
      = .ok ⟨(jget (bs "username") inner).getD (.str (bs "unknown")),
             (jget (bs "credentials") inner).getD (.str (bs "")), .null, .num 3600⟩ := by
  have hk : hasKey (bs "credentials") outer = true := by
    simp [hasKey, hcred]
  unfold ZotifyCredentials.load
  rw [huser, hk]
  simp only [Bool.false_and, Bool.and_false, Bool.false_and, Bool.not_false,
    Bool.true_and, Bool.and_true, Bool.false_eq_true, if_false, if_true]
  unfold loadLegacy
  simp only [hcred, hdec, hascii, hjson, if_true]

theorem load_legacy_format_witness :
    ZotifyCredentials.load (JMembers.ofList
        [(bs "credentials",
          Json.str (b64encode (bs "\x7b\"username\":\"alice\",\"credentials\":\"tok123\"\x7d")))])
      = .ok ⟨.str (bs "alice"), .str (bs "tok123"), .null, .num 3600⟩ :=
  (load_legacy_format
      (JMembers.ofList
        [(bs "credentials",
          Json.str (b64encode (bs "\x7b\"username\":\"alice\",\"credentials\":\"tok123\"\x7d")))])
      (b64encode (bs "\x7b\"username\":\"alice\",\"credentials\":\"tok123\"\x7d"))
      (bs "\x7b\"username\":\"alice\",\"credentials\":\"tok123\"\x7d")
      (JMembers.ofList
        [(bs "username", .str (bs "alice")), (bs "credentials", .str (bs "tok123"))])
      (by decide) (by decide) (by decide) (by decide) (by decide)).trans (by decide)

/-- C7: `load` fails with the format error (`ValueError("Invalid
credentials file format")`) exactly when the parsed JSON object has
neither all three of `username`/`credentials`/`type` nor `credentials`
without a top-level `username`; in particular a `foo: bar` object does. -/
theorem load_formatError_iff :
    (∀ data : JMembers,
        ZotifyCredentials.load data = .error .formatError
          ↔ ¬(hasKey (bs "username") data = true ∧ hasKey (bs "credentials") data = true
                ∧ hasKey (bs "type") data = true)
            ∧ ¬(hasKey (bs "credentials") data = true
                ∧ ¬hasKey (bs "username") data = true))
      ∧ ZotifyCredentials.load (JMembers.ofList [(bs "foo", .str (bs "bar"))])
          = .error .formatError := by
  constructor
  · intro data
    unfold ZotifyCredentials.load
    by_cases hA : (hasKey (bs "username") data && hasKey (bs "credentials") data
        && hasKey (bs "type") data) = true
    · rw [if_pos hA]
      simp only [Bool.and_eq_true] at hA
      constructor
      · intro h
        exact absurd h (loadCurrent_ne_formatError data)
      · intro h
        exact absurd ⟨hA.1.1, hA.1.2, hA.2⟩ h.1
    · rw [if_neg hA]
      by_cases hB : (hasKey (bs "credentials") data && !hasKey (bs "username") data) = true
      · rw [if_pos hB]
        simp only [Bool.and_eq_true, Bool.not_eq_true'] at hB
        constructor
        · intro h
          exact absurd h (loadLegacy_ne_formatError data)
        · intro h
          exact absurd ⟨hB.1, by simp [hB.2]⟩ h.2
      · rw [if_neg hB]
        constructor
        · intro _
          constructor
          · intro ⟨h1, h2, h3⟩
            exact hA (by simp [h1, h2, h3])
          · intro ⟨hc, hu⟩
            exact hB (by simp [hc, Bool.eq_false_iff.mpr hu])
        · intro _
          rfl
  · decide

/-- C3: when the token response has no `error` field, `exchange_code`
returns credentials with username = identity `id`, falling back to
`email`, falling back to `"unknown"`; the (required) `access_token`;
`refresh_token` only if present (else `None`); and `expires_in`
defaulting to 3600. -/
theorem exchange_success_fields (auth : ZotifyAuth) (code : ByteStr)
    (vArg : Option ByteStr) (tokenResp userResp : JMembers) (tok : Json)
    (hv : truthyOpt (if truthyOpt vArg then vArg else auth.code_verifier) = true)
    (hnoerr : jget (bs "error") tokenResp = none)
    (htok : jget (bs "access_token") tokenResp = some tok) :
    (exchangeCode auth code vArg tokenResp userResp).2
      = .ok { username := (jget (bs "id") userResp).getD
                ((jget (bs "email") userResp).getD (.str (bs "unknown"))),
              access_token := tok,
              refresh_token := (jget (bs "refresh_token") tokenResp).getD .null,
              expires_in := (jget (bs "expires_in") tokenResp).getD (.num 3600) } := by
  simp only [exchangeCode, hv, hnoerr, htok, Bool.not_true, Bool.false_eq_true,
    if_false]

theorem exchange_success_fields_witness :
    (exchangeCode ⟨bs "cid", bs "https://cb", none, none⟩ (bs "AQD") (some (bs "ver"))
        (JMembers.ofList
          [(bs "access_token", .str (bs "AT1")), (bs "expires_in", .num 3600)])
        (JMembers.ofList [(bs "id", .str (bs "user42"))])).2
      = .ok ⟨.str (bs "user42"), .str (bs "AT1"), .null, .num 3600⟩ :=
  (exchange_success_fields ⟨bs "cid", bs "https://cb", none, none⟩ (bs "AQD")
      (some (bs "ver"))
      (JMembers.ofList
        [(bs "access_token", .str (bs "AT1")), (bs "expires_in", .num 3600)])
      (JMembers.ofList [(bs "id", .str (bs "user42"))])
      (.str (bs "AT1"))
      (by decide) (by decide) (by decide)).trans (by decide)

/-- C4 counterexample: on the body
`error: invalid_grant, error_description: bad code` the raised
`AuthenticationError`'s message is `"Token exchange failed: bad code"`,
not `"bad code"` as the claim states. -/
theorem exchange_error_message_cex :
    (exchangeCode ⟨bs "cid", bs "https://cb", none, none⟩ (bs "AQD") (some (bs "ver"))
        (JMembers.ofList
          [(bs "error", .str (bs "invalid_grant")),
           (bs "error_description", .str (bs "bad code"))])
        JMembers.nil).2
      ≠ .error (.authenticationError (bs "bad code"))
    ∧ (exchangeCode ⟨bs "cid", bs "https://cb", none, none⟩ (bs "AQD") (some (bs "ver"))
        (JMembers.ofList
          [(bs "error", .str (bs "invalid_grant")),
           (bs "error_description", .str (bs "bad code"))])
        JMembers.nil).2
      = .error (.authenticationError (bs "Token exchange failed: bad code")) := by
  decide

/-- C4 (amended): on a token response with an `error` field,
`exchange_code` fails with `AuthenticationError` whose message is
`"Token exchange failed: "` followed by the `error_description` if
present, else the raw `error` code. -/
theorem exchange_error_message (auth : ZotifyAuth) (code : ByteStr)
    (vArg : Option ByteStr) (tokenResp userResp : JMembers) (e : Json)
    (hv : truthyOpt (if truthyOpt vArg then vArg else auth.code_verifier) = true)
    (herr : jget (bs "error") tokenResp = some e) :
    (exchangeCode auth code vArg tokenResp userResp).2
      = .error (.authenticationError (bs "Token exchange failed: "
          ++ pyStrOfJson ((jget (bs "error_description") tokenResp).getD e))) := by
  simp only [exchangeCode, hv, herr, Bool.not_true, Bool.false_eq_true, if_false]

theorem exchange_error_message_witness :
    (exchangeCode ⟨bs "cid", bs "https://cb", none, none⟩ (bs "AQD") (some (bs "ver"))
        (JMembers.ofList
          [(bs "error", .str (bs "invalid_grant")),
           (bs "error_description", .str (bs "bad code"))])
        JMembers.nil).2
      = .error (.authenticationError (bs "Token exchange failed: bad code")) :=
  (exchange_error_message ⟨bs "cid", bs "https://cb", none, none⟩ (bs "AQD")
      (some (bs "ver"))
      (JMembers.ofList
        [(bs "error", .str (bs "invalid_grant")),
         (bs "error_description", .str (bs "bad code"))])
      JMembers.nil
      (.str (bs "invalid_grant"))
      (by decide) (by decide)).trans (by decide)

/-- C5: with no explicit verifier and no stored verifier, `exchange_code`
fails with the missing-verifier `ValueError` (the spec's
`ConfigurationError`) issuing no HTTP request; an explicit (truthy)
verifier is the one sent to the token endpoint, else the stored one. -/
theorem exchange_verifier_resolution (auth : ZotifyAuth) (code : ByteStr)
    (tokenResp userResp : JMembers) (vArg : Option ByteStr) :
    (vArg = none → auth.code_verifier = none →
        exchangeCode auth code vArg tokenResp userResp
          = ([], .error .configurationError))
    ∧ (truthyOpt vArg = true →
        firstRequestVerifier (exchangeCode auth code vArg tokenResp userResp) = vArg)
    ∧ (truthyOpt vArg = false → truthyOpt auth.code_verifier = true →
        firstRequestVerifier (exchangeCode auth code vArg tokenResp userResp)
          = auth.code_verifier) := by
  have k1 : (bs "code_verifier" == bs "grant_type") = false := by decide
  have k2 : (bs "code_verifier" == bs "code") = false := by decide
  have k3 : (bs "code_verifier" == bs "redirect_uri") = false := by decide
  have k4 : (bs "code_verifier" == bs "client_id") = false := by decide
  have k5 : (bs "code_verifier" == bs "code_verifier") = true := by decide
  refine ⟨?_, ?_, ?_⟩
  · intro h1 h2
    subst h1
    simp [exchangeCode, h2, truthyOpt]
  · intro hv
    obtain ⟨v, rfl⟩ : ∃ v, vArg = some v := by
      cases vArg with
      | none => simp [truthyOpt] at hv
      | some v => exact ⟨v, rfl⟩
    simp only [exchangeCode, hv, if_true, Bool.not_true, Bool.false_eq_true, if_false]
    cases hj : jget (bs "error") tokenResp with
    | some e => simp [hj, firstRequestVerifier, List.lookup, k1, k2, k3, k4, k5]
    | none =>
        cases ht : jget (bs "access_token") tokenResp with
        | some tok => simp [hj, ht, firstRequestVerifier, List.lookup, k1, k2, k3, k4, k5]
        | none => simp [hj, ht, firstRequestVerifier, List.lookup, k1, k2, k3, k4, k5]
  · intro hva hst
    obtain ⟨s, hs⟩ : ∃ s, auth.code_verifier = some s := by
      cases hcv : auth.code_verifier with
      | none => rw [hcv] at hst; simp [truthyOpt] at hst
      | some s => exact ⟨s, rfl⟩
    rw [hs] at hst
    simp only [exchangeCode, hva, hs, hst, Bool.false_eq_true, if_false, if_true,
      Bool.not_true]
    cases hj : jget (bs "error") tokenResp with
    | some e => simp [hj, firstRequestVerifier, List.lookup, k1, k2, k3, k4, k5]
    | none =>
        cases ht : jget (bs "access_token") tokenResp with
        | some tok => simp [hj, ht, firstRequestVerifier, List.lookup, k1, k2, k3, k4, k5]
        | none => simp [hj, ht, firstRequestVerifier, List.lookup, k1, k2, k3, k4, k5]

theorem exchange_verifier_resolution_witness :
    exchangeCode ⟨bs "cid", bs "https://cb", none, none⟩ (bs "AQD") none
        JMembers.nil JMembers.nil
      = ([], .error .configurationError)
    ∧ firstRequestVerifier (exchangeCode ⟨bs "cid", bs "https://cb", none, none⟩
        (bs "AQD") (some (bs "expv")) JMembers.nil JMembers.nil) = some (bs "expv")
    ∧ firstRequestVerifier (exchangeCode ⟨bs "cid", bs "https://cb", some (bs "sv"), none⟩
        (bs "AQD") none JMembers.nil JMembers.nil) = some (bs "sv") :=
  ⟨(exchange_verifier_resolution ⟨bs "cid", bs "https://cb", none, none⟩ (bs "AQD")
      JMembers.nil JMembers.nil none).1 rfl rfl,
   (exchange_verifier_resolution ⟨bs "cid", bs "https://cb", none, none⟩ (bs "AQD")
      JMembers.nil JMembers.nil (some (bs "expv"))).2.1 (by decide),
   (exchange_verifier_resolution ⟨bs "cid", bs "https://cb", some (bs "sv"), none⟩
      (bs "AQD") JMembers.nil JMembers.nil none).2.2 (by decide) (by decide)⟩

/-- C10: an explicit empty-string verifier is treated as absent — the
stored verifier is used instead when one is (truthy) stored, and the call
fails with the missing-verifier error issuing no request otherwise; an
empty verifier is never sent to the token endpoint. -/
theorem exchange_empty_verifier_arg (auth : ZotifyAuth) (code : ByteStr)
    (tokenResp userResp : JMembers) :
    (truthyOpt auth.code_verifier = true →
        firstRequestVerifier (exchangeCode auth code (some []) tokenResp userResp)
          = auth.code_verifier)
    ∧ (truthyOpt auth.code_verifier = false →
        exchangeCode auth code (some []) tokenResp userResp
          = ([], .error .configurationError))
    ∧ firstRequestVerifier (exchangeCode auth code (some []) tokenResp userResp)
        ≠ some [] := by
  have k1 : (bs "code_verifier" == bs "grant_type") = false := by decide
  have k2 : (bs "code_verifier" == bs "code") = false := by decide
  have k3 : (bs "code_verifier" == bs "redirect_uri") = false := by decide
  have k4 : (bs "code_verifier" == bs "client_id") = false := by decide
  have k5 : (bs "code_verifier" == bs "code_verifier") = true := by decide
  have hempty : truthyOpt (some ([] : ByteStr)) = false := by decide
  have hstored : truthyOpt auth.code_verifier = true →
      firstRequestVerifier (exchangeCode auth code (some []) tokenResp userResp)
        = auth.code_verifier := by
    intro hst
    obtain ⟨s, hs⟩ : ∃ s, auth.code_verifier = some s := by
      cases hcv : auth.code_verifier with
      | none => rw [hcv] at hst; simp [truthyOpt] at hst
      | some s => exact ⟨s, rfl⟩
    rw [hs] at hst
    simp only [exchangeCode, hempty, hs, hst, Bool.false_eq_true, if_false, if_true,
      Bool.not_true]
    cases hj : jget (bs "error") tokenResp with
    | some e => simp [hj, firstRequestVerifier, List.lookup, k1, k2, k3, k4, k5]
    | none =>
        cases ht : jget (bs "access_token") tokenResp with
        | some tok => simp [hj, ht, firstRequestVerifier, List.lookup, k1, k2, k3, k4, k5]
        | none => simp [hj, ht, firstRequestVerifier, List.lookup, k1, k2, k3, k4, k5]
  have herr : truthyOpt auth.code_verifier = false →
      exchangeCode auth code (some []) tokenResp userResp
        = ([], .error .configurationError) := by
    intro hst
    simp [exchangeCode, hempty, hst]
  refine ⟨hstored, herr, ?_⟩
  by_cases ht : truthyOpt auth.code_verifier = true
  · rw [hstored ht]
    obtain ⟨s, hs⟩ : ∃ s, auth.code_verifier = some s := by
      cases hcv : auth.code_verifier with
      | none => rw [hcv] at ht; simp [truthyOpt] at ht
      | some s => exact ⟨s, rfl⟩
    rw [hs] at ht ⊢
    simp only [truthyOpt, truthyStr] at ht
    simp only [ne_eq, Option.some.injEq]
    intro hcontra
    rw [hcontra] at ht
    simp at ht
  · rw [herr (Bool.eq_false_iff.mpr ht)]
    simp [firstRequestVerifier]

/-- C9 counterexample: with no explicit proxy, `HTTP_PROXY` unset and
`HTTPS_PROXY` set to the empty string, the claim predicts populated proxy
slots, but the constructor configures no proxies (Python truthiness: an
empty environment value fails the `elif os.getenv('HTTPS_PROXY')` test). -/
theorem proxy_resolution_cex :
    (zotifyAuthInit (bs "cid") (bs "https://cb") none none (some [])).proxies = none
    ∧ (zotifyAuthInit (bs "cid") (bs "https://cb") none none (some [])).proxies
        ≠ some (none, some []) := by
  decide

/-- C9 (amended): an explicit non-empty proxy fills both slots with that
value; otherwise, if `HTTPS_PROXY` is set to a *non-empty* value, the
`https` slot comes from `HTTPS_PROXY` and the `http` slot from
`HTTP_PROXY` even when the latter is unset; otherwise (unset or empty
`HTTPS_PROXY`) no proxies are configured. -/
theorem proxy_resolution (cid ru : ByteStr) (proxy envHttp envHttps : Option ByteStr) :
    (∀ p, proxy = some p → truthyStr p = true →
        (zotifyAuthInit cid ru proxy envHttp envHttps).proxies = some (some p, some p))
    ∧ (truthyOpt proxy = false → ∀ hs, envHttps = some hs → truthyStr hs = true →
        (zotifyAuthInit cid ru proxy envHttp envHttps).proxies
          = some (envHttp, some hs))
    ∧ (truthyOpt proxy = false → truthyOpt envHttps = false →
        (zotifyAuthInit cid ru proxy envHttp envHttps).proxies = none) := by
  refine ⟨?_, ?_, ?_⟩
  · intro p hp htr
    subst hp
    simp [zotifyAuthInit, truthyOpt, htr]
  · intro hp hs hhs htr
    subst hhs
    have htr' : truthyOpt (some hs) = true := by simp [truthyOpt, htr]
    simp [zotifyAuthInit, hp, htr']
  · intro hp hhs
    simp [zotifyAuthInit, hp, hhs]

theorem proxy_resolution_witness :
    (zotifyAuthInit (bs "c") (bs "r") (some (bs "http://p:8080")) none none).proxies
        = some (some (bs "http://p:8080"), some (bs "http://p:8080"))
    ∧ (zotifyAuthInit (bs "c") (bs "r") none none (some (bs "http://hp:443"))).proxies
        = some (none, some (bs "http://hp:443"))
    ∧ (zotifyAuthInit (bs "c") (bs "r") none (some (bs "http://only-http")) none).proxies
        = none :=
  ⟨(proxy_resolution (bs "c") (bs "r") (some (bs "http://p:8080")) none none).1
      (bs "http://p:8080") rfl (by decide),
   (proxy_resolution (bs "c") (bs "r") none none (some (bs "http://hp:443"))).2.1
      (by decide) (bs "http://hp:443") rfl (by decide),
   (proxy_resolution (bs "c") (bs "r") none (some (bs "http://only-http")) none).2.2
      (by decide) (by decide)⟩

theorem exchange_empty_verifier_arg_witness :
    firstRequestVerifier (exchangeCode ⟨bs "cid", bs "https://cb", some (bs "sv2"), none⟩
        (bs "AQD") (some []) JMembers.nil JMembers.nil) = some (bs "sv2")
    ∧ exchangeCode ⟨bs "cid2", bs "https://cb", none, none⟩ (bs "AQD") (some [])
        JMembers.nil JMembers.nil = ([], .error .configurationError) :=
  ⟨(exchange_empty_verifier_arg ⟨bs "cid", bs "https://cb", some (bs "sv2"), none⟩
      (bs "AQD") JMembers.nil JMembers.nil).1 (by decide),
   (exchange_empty_verifier_arg ⟨bs "cid2", bs "https://cb", none, none⟩
      (bs "AQD") JMembers.nil JMembers.nil).2.1 (by decide)⟩
